import Mathlib

/-!
# Verification of the translator-from-zoom task pipeline and polling client

Shallow embedding of the repository's polling client (`static` JS) and of the
task-orchestration pipeline described in the specification.  Client-side
functions are translated directly from the JavaScript sources; the server-side
orchestration manager is not part of the checked-in sources, so it is modelled
from the specification where noted.

JavaScript numbers are modelled exactly: integers as `Nat`/`Int`, fractional
arithmetic as `ℚ`.  JS truthiness of an optional string field is modelled by
`jsTruthy`.
-/

namespace ZoomClient

/-- JS truthiness of a field that is either absent (`none`), or a string:
`null`/`undefined` and the empty string are falsy, every other string truthy. -/
def jsTruthy : Option String → Bool
  | none => false
  | some s => s != ""

/-! ## Progress-to-phase mapping (updateProgress, updateMorphingLoader) -/

/-- CSS class assigned to the progress bar by `updateProgress` in the client
script, as a function of the reported progress value. -/
def progressBarClass (progress : Nat) : String :=
  if progress < 40 then
    "bg-blue-600 h-3 rounded-full transition-all duration-500"
  else if progress < 60 then
    "bg-purple-600 h-3 rounded-full transition-all duration-500"
  else if progress < 95 then
    "bg-green-600 h-3 rounded-full transition-all duration-500"
  else
    "bg-yellow-500 h-3 rounded-full transition-all duration-500"

/-- Target morph phase computed by `updateMorphingLoader` in
`microinteractions.js`: 0 = cloud (acquisition), 1 = waveform (audio
preparation), 2 = brain (transcription), 3 = checkmark (finalization). -/
def morphTargetPhase (progress : Nat) : Nat :=
  if progress < 40 then 0
  else if progress < 60 then 1
  else if progress < 95 then 2
  else 3

/-! ## Polling loop state (checkStatus, resumeTask) -/

/-- Client-side polling state: whether the 1-second poll interval is active,
which task id it polls, and the `currentTaskId` persisted in localStorage. -/
structure ClientState where
  polling : Bool
  pollTarget : Option String
  saved : Option String
  deriving DecidableEq, Repr

/-- A `/status/{id}` JSON response as consumed by `checkStatus`: an optional
top-level `error` field, the `status` string and an optional `message`. -/
structure StatusResp where
  errorField : Option String
  status : String
  message : Option String
  deriving DecidableEq, Repr

/-- One execution of the `checkStatus` response handler: a truthy top-level
`error` clears the interval and returns early; `status === 'completed'` or
`status === 'error'` clears the interval and removes the saved task id; any
other status leaves the state untouched. -/
def checkStatusStep (data : StatusResp) (st : ClientState) : ClientState :=
  if jsTruthy data.errorField then
    { st with polling := false }
  else if data.status == "completed" then
    { st with polling := false, saved := none }
  else if data.status == "error" then
    { st with polling := false, saved := none }
  else
    st

/-- The `DOMContentLoaded` handler: when localStorage holds a saved
`currentTaskId` the client calls `resumeTask`, which starts polling that id;
otherwise no polling starts. -/
def onPageLoad (savedTaskId : Option String) : ClientState :=
  match savedTaskId with
  | some id => { polling := true, pollTarget := some id, saved := some id }
  | none => { polling := false, pollTarget := none, saved := none }

/-! ## formatFileSize -/

/-- JS `Math.round`: round half towards positive infinity. -/
def jsRound (q : ℚ) : ℤ := ⌊q + 1 / 2⌋

/-- The unit-name array `['Bytes', 'KB', 'MB', 'GB']` of `formatFileSize`. -/
def sizesArr : List String := ["Bytes", "KB", "MB", "GB"]

/-- JS shortest-round-trip rendering of a non-negative number that is an exact
multiple of 1/100, given as a count of hundredths: the integer part, then up to
two decimals with trailing zeros dropped. -/
def renderHundredths (n : Nat) : String :=
  let whole := n / 100
  let frac := n % 100
  if frac = 0 then toString whole
  else if frac % 10 = 0 then toString whole ++ "." ++ toString (frac / 10)
  else if frac < 10 then toString whole ++ ".0" ++ toString frac
  else toString whole ++ "." ++ toString frac

/-- `formatFileSize` from the client script: `0` maps to `'0 Bytes'`; otherwise
`i = Math.floor(Math.log(bytes) / Math.log(1024))` (exact-real logarithm,
i.e. `Nat.log 1024`), and the result is `Math.round(bytes / 1024^i * 100) /
100` rendered as a number, a space, and `sizes[i]` — where indexing past the
end of the array yields JS `undefined`, rendered as `"undefined"` by the
string concatenation. -/
def formatFileSize (bytes : Nat) : String :=
  if bytes = 0 then "0 Bytes"
  else
    let i := Nat.log 1024 bytes
    let hundredths := jsRound ((bytes : ℚ) / 1024 ^ i * 100)
    renderHundredths hundredths.toNat ++ " " ++ sizesArr.getD i "undefined"

/-! ## History rendering (loadHistory, displayHistory) -/

/-- A task object of the `GET /history` response as read by `displayHistory`:
`task_id`, `status`, optional `filename`, and `created_at` (epoch seconds). -/
structure HistoryTask where
  task_id : String
  status : String
  filename : Option String
  created_at : Int
  deriving DecidableEq, Repr

/-- The filter applied by `displayHistory`:
`tasks.filter(t => t.status === 'completed' && t.filename)`. -/
def displayHistoryFiltered (tasks : List HistoryTask) : List HistoryTask :=
  tasks.filter (fun t => t.status == "completed" && jsTruthy t.filename)

/-- File-name label of one history row:
`task.filename ? task.filename.split(/[/\\]/).pop() : 'קובץ לא ידוע'`. -/
def historyLabel (t : HistoryTask) : String :=
  match t.filename with
  | some s =>
      if s != "" then (s.split (fun c => c == '/' || c == '\\')).getLastD ""
      else "קובץ לא ידוע"
  | none => "קובץ לא ידוע"

/-- The rendered history listing: one `(label, download href)` row per task
surviving the `displayHistory` filter, hrefs `/download/${task.task_id}`. -/
def historyItems (tasks : List HistoryTask) : List (String × String) :=
  (displayHistoryFiltered tasks).map
    (fun t => (historyLabel t, "/download/" ++ t.task_id))

end ZoomClient

namespace ZoomServer

/-- Modelled from the spec: the task lifecycle states of the Task
Orchestration Manager (the server sources are not part of the checked-in
tree; only their spec and their polling client are). -/
inductive TState where
  | queued
  | downloading
  | extracting_audio
  | transcribing
  | diarizing
  | summarizing
  | completed
  | error
  deriving DecidableEq, Repr

/-- Modelled from the spec: one committed update of a task record — its
state, its progress value, and the `result` / `errorDetail` payloads that are
populated exactly in the terminal states. -/
structure Snap where
  state : TState
  progress : Nat
  result : Option String
  errorDetail : Option String
  deriving DecidableEq, Repr

/-- Modelled from the spec: the outcomes of the external collaborators one
pipeline run consumes — Media Acquirer, Audio Extractor, Transcription Engine
(with its stream of partial absolute progress reports), optional diarization,
and Summarization Engine.  `Except.error` carries the failure message. -/
structure Externals where
  acquire : Except String String
  extract : Except String String
  transcribePartials : List Nat
  transcribe : Except String String
  diarizeEnabled : Bool
  diarize : Except String String
  summarize : Except String String

/-- Modelled from the spec: stage 4–5 of the pipeline — transition to
`summarizing` at progress 95, then either `error` (frozen at 95) or
`completed` at progress 100 with `result` populated. -/
def summPart (ext : Externals) : List Snap :=
  Snap.mk .summarizing 95 none none ::
    match ext.summarize with
    | .error msg => [Snap.mk .error 95 none (some msg)]
    | .ok res => [Snap.mk .completed 100 (some res) none]

/-- Modelled from the spec: what follows the transcription partial-progress
reports — transcription failure freezes progress at the last reported value;
otherwise the optional `diarizing` stage runs at the current progress, and on
success the pipeline proceeds to summarization. -/
def afterTrans (cur : Nat) (ext : Externals) : List Snap :=
  match ext.transcribe with
  | .error msg => [Snap.mk .error cur none (some msg)]
  | .ok _ =>
    if ext.diarizeEnabled then
      Snap.mk .diarizing cur none none ::
        match ext.diarize with
        | .error msg => [Snap.mk .error cur none (some msg)]
        | .ok _ => summPart ext
    else summPart ext

/-- Modelled from the spec: the intra-transcription progress updates —
each partial report is recorded monotonically (never below the current value)
and capped below 95 (at 94) until the stage fully completes. -/
def transPart (cur : Nat) (rs : List Nat) (ext : Externals) : List Snap :=
  match rs with
  | [] => afterTrans cur ext
  | r :: rest =>
    let p := max cur (min r 94)
    Snap.mk .transcribing p none none :: transPart p rest ext

/-- Modelled from the spec: the full per-task pipeline trace — the sequence of
task-record snapshots committed to the store, from `queued`/0 through the
staged checkpoints 5 / 40 / 60 / 95 / 100, short-circuiting to `error` with
progress frozen at its last reported value on any stage failure. -/
def runPipeline (ext : Externals) : List Snap :=
  Snap.mk .queued 0 none none ::
  Snap.mk .downloading 5 none none ::
    match ext.acquire with
    | .error msg => [Snap.mk .error 5 none (some msg)]
    | .ok _ =>
      Snap.mk .extracting_audio 40 none none ::
        match ext.extract with
        | .error msg => [Snap.mk .error 40 none (some msg)]
        | .ok _ =>
          Snap.mk .transcribing 60 none none ::
            transPart 60 ext.transcribePartials ext

/-- The legal stage-transition relation of the spec: the pipeline order
`queued → downloading → extracting_audio → transcribing → [diarizing] →
summarizing → completed`, where `transcribing` may repeat for intra-stage
progress, `diarizing` is optional, and any non-terminal stage may
short-circuit to `error`. -/
def legalStep : TState → TState → Bool
  | .queued, .downloading => true
  | .downloading, .extracting_audio => true
  | .downloading, .error => true
  | .extracting_audio, .transcribing => true
  | .extracting_audio, .error => true
  | .transcribing, .transcribing => true
  | .transcribing, .diarizing => true
  | .transcribing, .summarizing => true
  | .transcribing, .error => true
  | .diarizing, .summarizing => true
  | .diarizing, .error => true
  | .summarizing, .completed => true
  | .summarizing, .error => true
  | _, _ => false

/-- The combined adjacency invariant of a pipeline trace: every step is a
legal stage transition, progress never decreases, a step into `error` keeps
the previous progress value, a step into `transcribing` from a different
stage lands exactly at 60, and no snapshot with a successor is terminal. -/
def stepInv (a b : Snap) : Prop :=
  legalStep a.state b.state = true ∧
  a.progress ≤ b.progress ∧
  (b.state = .error → b.progress = a.progress) ∧
  (b.state = .transcribing → a.state ≠ .transcribing → b.progress = 60) ∧
  a.state ≠ .completed ∧ a.state ≠ .error

/-- The per-snapshot invariant of a pipeline trace: each stage is recorded at
its fixed checkpoint (`downloading` 5, `extracting_audio` 40, `transcribing`
in [60, 95), `summarizing` 95), `completed` at 100 with `result` populated,
and `error` with `errorDetail` populated. -/
def snapInv (s : Snap) : Prop :=
  (s.state = .queued → s.progress = 0) ∧
  (s.state = .downloading → s.progress = 5) ∧
  (s.state = .extracting_audio → s.progress = 40) ∧
  (s.state = .transcribing → 60 ≤ s.progress ∧ s.progress < 95) ∧
  (s.state = .summarizing → s.progress = 95) ∧
  (s.state = .completed → s.progress = 100 ∧ s.result.isSome = true) ∧
  (s.state = .error → s.errorDetail.isSome = true)

/-! ## Task record store and API surface -/

/-- Modelled from the spec: a task record in the Task Record Store — opaque
id, lifecycle state, progress, human-readable message, creation timestamp. -/
structure STask where
  id : Nat
  state : TState
  progress : Nat
  message : String
  createdAt : Int
  deriving DecidableEq, Repr

/-- Modelled from the spec: the Task Record Store plus the id generator — ids
are allocated from a counter so they are never reused. -/
structure ServerState where
  nextId : Nat
  tasks : List STask
  deriving DecidableEq, Repr

/-- Character-list prefix test (the character-level reading of
`url.startsWith`). -/
def charPrefix : List Char → List Char → Bool
  | [], _ => true
  | _ :: _, [] => false
  | a :: as, b :: bs => a == b && charPrefix as bs

/-- Modelled from the spec: URL scheme validation — a valid submission URL
must be an HTTP(S) address; this strips the scheme, failing on anything
else (including the empty string). -/
def stripScheme (url : String) : Option (List Char) :=
  if charPrefix "http://".data url.data then some (url.data.drop 7)
  else if charPrefix "https://".data url.data then some (url.data.drop 8)
  else none

/-- Host component of a scheme-stripped URL: everything before the first
slash. -/
def hostOf (rest : List Char) : List Char := rest.takeWhile (fun c => c != '/')

/-- Modelled from the spec: the source-descriptor validation of `submit` — the
URL must be syntactically valid (HTTP or HTTPS scheme) and its host must be on
the allow list. -/
def validURL (allow : List String) (url : String) : Bool :=
  match stripScheme url with
  | none => false
  | some rest => allow.any (fun d => d.data == hostOf rest)

/-- Modelled from the spec: `submit(source)` — validates the source descriptor
first and fails fast with a `ValidationError` before any task is created;
on success it allocates a fresh id and inserts a `queued` record with
progress 0. -/
def submit (allow : List String) (st : ServerState) (url : String)
    (now : Int) : ServerState × Except String Nat :=
  if validURL allow url then
    ({ nextId := st.nextId + 1,
       tasks := st.tasks ++ [STask.mk st.nextId .queued 0 "" now] },
     .ok st.nextId)
  else
    (st, .error "ValidationError")

/-- The externally polled representation of one task, as in the spec's
`GET /status/{task_id}` contract. -/
structure StatusView where
  status : TState
  progress : Nat
  message : String
  deriving DecidableEq, Repr

/-- Modelled from the spec: `status(taskId)` — a pure store lookup that fails
with `NotFound` for an unknown id and otherwise projects the record into the
polled representation (state, progress, message). -/
def statusQuery (st : ServerState) (id : Nat) : Except String StatusView :=
  match st.tasks.find? (fun t => t.id == id) with
  | none => .error "NotFound"
  | some t => .ok (StatusView.mk t.state t.progress t.message)

/-- Modelled from the spec: the history ordering — `createdAt` descending,
ties broken by `id`. -/
def histOrder (a b : STask) : Prop :=
  b.createdAt < a.createdAt ∨ (a.createdAt = b.createdAt ∧ a.id ≤ b.id)

instance : DecidableRel histOrder := fun a b => by
  unfold histOrder; infer_instance

instance : IsTotal STask histOrder where
  total a b := by
    rcases lt_trichotomy a.createdAt b.createdAt with h | h | h
    · exact Or.inr (Or.inl h)
    · rcases Nat.le_total a.id b.id with h2 | h2
      · exact Or.inl (Or.inr ⟨h, h2⟩)
      · exact Or.inr (Or.inr ⟨h.symm, h2⟩)
    · exact Or.inl (Or.inl h)

instance : IsTrans STask histOrder where
  trans a b c hab hbc := by
    rcases hab with h1 | ⟨h1, h1'⟩
    · rcases hbc with h2 | ⟨h2, _⟩
      · exact Or.inl (h2.trans h1)
      · exact Or.inl (h2 ▸ h1)
    · rcases hbc with h2 | ⟨h2, h2'⟩
      · exact Or.inl (h1 ▸ h2)
      · exact Or.inr ⟨h1.trans h2, h1'.trans h2'⟩

/-- Modelled from the spec: `listHistory()` — the store's tasks ordered by
`createdAt` descending, ties broken by `id`. -/
def listHistory (st : ServerState) : List STask :=
  st.tasks.insertionSort histOrder

end ZoomServer

namespace ZoomClient

/-- C1: the polling client maps progress to a pipeline phase by the fixed
boundaries 40, 60 and 95: [0,40) is the acquisition phase (blue bar, cloud
morph 0), [40,60) audio preparation (purple bar, waveform morph 1), [60,95)
transcription/diarization (green bar, brain morph 2), and [95,100]
finalization/summarization (yellow bar, checkmark morph 3) — both
progress-consuming UI functions use exactly these boundaries. -/
theorem progress_phase_boundaries (p : Nat) :
    (morphTargetPhase p = 0 ↔ p < 40) ∧
    (morphTargetPhase p = 1 ↔ 40 ≤ p ∧ p < 60) ∧
    (morphTargetPhase p = 2 ↔ 60 ≤ p ∧ p < 95) ∧
    (morphTargetPhase p = 3 ↔ 95 ≤ p) ∧
    (progressBarClass p = "bg-blue-600 h-3 rounded-full transition-all duration-500"
      ↔ p < 40) ∧
    (progressBarClass p = "bg-purple-600 h-3 rounded-full transition-all duration-500"
      ↔ 40 ≤ p ∧ p < 60) ∧
    (progressBarClass p = "bg-green-600 h-3 rounded-full transition-all duration-500"
      ↔ 60 ≤ p ∧ p < 95) ∧
    (progressBarClass p = "bg-yellow-500 h-3 rounded-full transition-all duration-500"
      ↔ 95 ≤ p) := by
  unfold morphTargetPhase progressBarClass
  split_ifs with h1 h2 h3 <;> simp_all <;> omega

/-- C9: `checkStatus` stops the polling loop exactly when the response has a
truthy top-level `error` field or reports status `completed` or `error`; the
persisted task id is removed exactly when the status is `completed` or
`error` (a top-level `error` field stops polling but keeps the saved id); any
other status leaves the client state untouched, and a page load with a saved
id resumes polling that id. -/
theorem checkStatus_terminal_handling (data : StatusResp) (st : ClientState)
    (id : String) (hpoll : st.polling = true) (hsaved : st.saved = some id) :
    ((checkStatusStep data st).polling = false ↔
      jsTruthy data.errorField = true ∨
        data.status = "completed" ∨ data.status = "error") ∧
    ((checkStatusStep data st).saved = none ↔
      jsTruthy data.errorField = false ∧
        (data.status = "completed" ∨ data.status = "error")) ∧
    (jsTruthy data.errorField = true → (checkStatusStep data st).saved = st.saved) ∧
    (jsTruthy data.errorField = false → data.status ≠ "completed" →
      data.status ≠ "error" → checkStatusStep data st = st) ∧
    onPageLoad (some id) = ClientState.mk true (some id) (some id) := by
  unfold checkStatusStep onPageLoad
  split_ifs with h1 h2 h3 <;> simp_all

/-- C9 witness: a concrete non-terminal response leaves a concrete polling
state untouched — the instantiated stop/clear equivalences and the resume
equation. -/
theorem checkStatus_terminal_handling_witness :
    ((checkStatusStep (StatusResp.mk none "transcribing" none)
        (ClientState.mk true (some "t1") (some "t1"))).polling = false ↔
      jsTruthy (none : Option String) = true ∨
        "transcribing" = "completed" ∨ "transcribing" = "error") ∧
    ((checkStatusStep (StatusResp.mk none "transcribing" none)
        (ClientState.mk true (some "t1") (some "t1"))).saved = none ↔
      jsTruthy (none : Option String) = false ∧
        ("transcribing" = "completed" ∨ "transcribing" = "error")) ∧
    onPageLoad (some "t1") = ClientState.mk true (some "t1") (some "t1") :=
  ⟨(checkStatus_terminal_handling (StatusResp.mk none "transcribing" none)
      (ClientState.mk true (some "t1") (some "t1")) "t1" rfl rfl).1,
   (checkStatus_terminal_handling (StatusResp.mk none "transcribing" none)
      (ClientState.mk true (some "t1") (some "t1")) "t1" rfl rfl).2.1,
   (checkStatus_terminal_handling (StatusResp.mk none "transcribing" none)
      (ClientState.mk true (some "t1") (some "t1")) "t1" rfl rfl).2.2.2.2⟩

/-- C5: when every completed task carries a (truthy) filename — which the
store guarantees, since `result` is populated exactly for completed tasks —
the history listing rendered by `displayHistory` surfaces exactly the tasks
with status `completed`, each row carrying the `/download/{task_id}`
reference; errored and non-terminal tasks never appear, and a store with two
completions and one failure yields exactly two rows. -/
theorem history_shows_exactly_completed (tasks : List HistoryTask)
    (hfn : ∀ t ∈ tasks, t.status = "completed" → jsTruthy t.filename = true) :
    displayHistoryFiltered tasks = tasks.filter (fun t => t.status == "completed") ∧
    (∀ t ∈ displayHistoryFiltered tasks, t.status = "completed") ∧
    (∀ t ∈ tasks, t.status ≠ "completed" → t ∉ displayHistoryFiltered tasks) ∧
    (∀ t ∈ displayHistoryFiltered tasks,
      (historyLabel t, "/download/" ++ t.task_id) ∈ historyItems tasks) ∧
    (tasks.countP (fun t => t.status == "completed") = 2 →
      (historyItems tasks).length = 2) := by
  have hfilter : displayHistoryFiltered tasks =
      tasks.filter (fun t => t.status == "completed") := by
    unfold displayHistoryFiltered
    refine List.filter_congr ?_
    intro t ht
    by_cases hc : t.status = "completed"
    · simp [hc, hfn t ht hc]
    · simp [hc]
  refine ⟨hfilter, ?_, ?_, ?_, ?_⟩
  · intro t ht
    rw [hfilter] at ht
    simpa using (List.mem_filter.mp ht).2
  · intro t _ hnc hmem
    rw [hfilter] at hmem
    exact hnc (by simpa using (List.mem_filter.mp hmem).2)
  · intro t ht
    unfold historyItems
    exact List.mem_map_of_mem _ ht
  · intro hcount
    unfold historyItems
    rw [List.length_map, hfilter, ← List.countP_eq_length_filter, hcount]

/-- C5 witness: a concrete store with two completed tasks and one errored
task — the filter equation and the two-row listing. -/
theorem history_shows_exactly_completed_witness :
    displayHistoryFiltered
        [HistoryTask.mk "t1" "completed" (some "a.txt") 100,
         HistoryTask.mk "t2" "error" none 90,
         HistoryTask.mk "t3" "completed" (some "b.txt") 80] =
      List.filter (fun t => t.status == "completed")
        [HistoryTask.mk "t1" "completed" (some "a.txt") 100,
         HistoryTask.mk "t2" "error" none 90,
         HistoryTask.mk "t3" "completed" (some "b.txt") 80] ∧
    (historyItems
        [HistoryTask.mk "t1" "completed" (some "a.txt") 100,
         HistoryTask.mk "t2" "error" none 90,
         HistoryTask.mk "t3" "completed" (some "b.txt") 80]).length = 2 :=
  ⟨(history_shows_exactly_completed
      [HistoryTask.mk "t1" "completed" (some "a.txt") 100,
       HistoryTask.mk "t2" "error" none 90,
       HistoryTask.mk "t3" "completed" (some "b.txt") 80] (by decide)).1,
   (history_shows_exactly_completed
      [HistoryTask.mk "t1" "completed" (some "a.txt") 100,
       HistoryTask.mk "t2" "error" none 90,
       HistoryTask.mk "t3" "completed" (some "b.txt") 80] (by decide)).2.2.2.2
      (by decide)⟩

/-- C10 counterexample: at `bytes = 1024 ^ 4` the unit index is 4, past the
end of the four-element unit array, so `formatFileSize` renders the JS
`undefined` — not a unit name — refuting the claim as stated for every
`bytes > 0`. -/
theorem formatFileSize_terabyte_undefined :
    formatFileSize (1024 ^ 4) = "1 undefined" := by
  have hb : (1 : ℕ) < 1024 := by norm_num
  have hlog : Nat.log 1024 (1024 ^ 4) = 4 := Nat.log_pow hb 4
  unfold formatFileSize
  rw [if_neg (by norm_num)]
  simp only [hlog]
  norm_num [jsRound, renderHundredths, sizesArr]
  decide

/-- C10 (amended to `bytes < 1024 ^ 4`): `formatFileSize 0 = "0 Bytes"`, and
for `0 < bytes < 1024 ^ 4` the unit index `i = Nat.log 1024 bytes` is the
floor of the base-1024 logarithm (characterized by
`1024 ^ i ≤ bytes < 1024 ^ (i + 1)`), is in range for the unit array
`['Bytes', 'KB', 'MB', 'GB']`, and the result is `bytes / 1024 ^ i` rounded
to hundredths, a space, and that unit name. -/
theorem formatFileSize_spec :
    formatFileSize 0 = "0 Bytes" ∧
    ∀ bytes : Nat, 0 < bytes → bytes < 1024 ^ 4 →
      Nat.log 1024 bytes < 4 ∧
      1024 ^ Nat.log 1024 bytes ≤ bytes ∧
      bytes < 1024 ^ (Nat.log 1024 bytes + 1) ∧
      sizesArr.getD (Nat.log 1024 bytes) "undefined" ∈ sizesArr ∧
      formatFileSize bytes =
        renderHundredths
            (jsRound ((bytes : ℚ) / 1024 ^ Nat.log 1024 bytes * 100)).toNat
          ++ " " ++ sizesArr.getD (Nat.log 1024 bytes) "undefined" := by
  constructor
  · rfl
  · intro bytes hpos hlt
    have hb : (1 : ℕ) < 1024 := by norm_num
    refine ⟨Nat.log_lt_of_lt_pow (by omega) hlt, ?_, ?_, ?_, ?_⟩
    · exact Nat.pow_log_le_self 1024 (by omega)
    · exact Nat.lt_pow_succ_log_self hb bytes
    · have h4 : Nat.log 1024 bytes < 4 := Nat.log_lt_of_lt_pow (by omega) hlt
      interval_cases h : Nat.log 1024 bytes <;> simp [sizesArr]
    · unfold formatFileSize
      rw [if_neg (by omega)]

/-- C10 witness: the amended statement applied at `bytes = 500000`
(488.28 KB, unit index `Nat.log 1024 500000 = 1`). -/
theorem formatFileSize_spec_witness :
    Nat.log 1024 500000 < 4 ∧
    1024 ^ Nat.log 1024 500000 ≤ 500000 ∧
    500000 < 1024 ^ (Nat.log 1024 500000 + 1) ∧
    sizesArr.getD (Nat.log 1024 500000) "undefined" ∈ sizesArr ∧
    formatFileSize 500000 =
      renderHundredths
          (jsRound ((500000 : ℚ) / 1024 ^ Nat.log 1024 500000 * 100)).toNat
        ++ " " ++ sizesArr.getD (Nat.log 1024 500000) "undefined" :=
  formatFileSize_spec.2 500000 (by norm_num) (by norm_num)

end ZoomClient

namespace ZoomServer

/-- The adjacency invariant holds along `summPart` and from any legal
predecessor at progress at most 95. -/
theorem chain_summPart (ext : Externals) (prev : Snap)
    (hleg : legalStep prev.state .summarizing = true)
    (hprog : prev.progress ≤ 95)
    (hc : prev.state ≠ .completed) (he : prev.state ≠ .error) :
    List.Chain' stepInv (prev :: summPart ext) := by
  unfold summPart
  cases ext.summarize <;>
    simp_all [List.chain'_cons, stepInv, legalStep]

/-- The adjacency invariant holds along `afterTrans` from a `transcribing`
snapshot at progress `cur ∈ [60, 94]`. -/
theorem chain_afterTrans (ext : Externals) (cur : Nat)
    (h60 : 60 ≤ cur) (h94 : cur ≤ 94) :
    List.Chain' stepInv
      (Snap.mk .transcribing cur none none :: afterTrans cur ext) := by
  unfold afterTrans
  cases htr : ext.transcribe with
  | error msg => simp [List.chain'_cons, stepInv, legalStep]
  | ok _ =>
    by_cases hd : ext.diarizeEnabled
    · simp only [hd, if_true]
      cases hdr : ext.diarize with
      | error msg =>
        simp [List.chain'_cons, stepInv, legalStep]
      | ok _ =>
        rw [List.chain'_cons]
        refine ⟨?_, chain_summPart ext _ rfl (by simp; omega) (by simp) (by simp)⟩
        simp [stepInv, legalStep]
    · simp only [hd, if_false]
      exact chain_summPart ext _ rfl (by simp; omega) (by simp) (by simp)

/-- The adjacency invariant holds along `transPart` from a `transcribing`
snapshot at progress `cur ∈ [60, 94]`. -/
theorem chain_transPart (ext : Externals) (rs : List Nat) :
    ∀ cur, 60 ≤ cur → cur ≤ 94 →
      List.Chain' stepInv
        (Snap.mk .transcribing cur none none :: transPart cur rs ext) := by
  induction rs with
  | nil => intro cur h60 h94; exact chain_afterTrans ext cur h60 h94
  | cons r rest ih =>
    intro cur h60 h94
    unfold transPart
    rw [List.chain'_cons]
    constructor
    · refine ⟨rfl, ?_, ?_, ?_, by simp, by simp⟩
      · simp
      · simp
      · intro _ hne; exact absurd rfl hne
    · exact ih (max cur (min r 94)) (by omega) (by omega)

/-- The adjacency invariant holds along the whole pipeline trace. -/
theorem chain_runPipeline (ext : Externals) :
    List.Chain' stepInv (runPipeline ext) := by
  unfold runPipeline
  cases hacq : ext.acquire with
  | error msg => simp [List.chain'_cons, stepInv, legalStep]
  | ok _ =>
    cases hex : ext.extract with
    | error msg => simp [List.chain'_cons, stepInv, legalStep]
    | ok _ =>
      rw [List.chain'_cons, List.chain'_cons, List.chain'_cons]
      refine ⟨?_, ?_, ?_,
        chain_transPart ext ext.transcribePartials 60 (by omega) (by omega)⟩
      · simp [stepInv, legalStep]
      · simp [stepInv, legalStep]
      · simp [stepInv, legalStep]

/-- Every snapshot of `summPart` satisfies the per-snapshot invariant. -/
theorem snap_summPart (ext : Externals) :
    ∀ s ∈ summPart ext, snapInv s := by
  unfold summPart
  cases ext.summarize <;> simp_all [snapInv]

/-- Every snapshot of `afterTrans` satisfies the per-snapshot invariant. -/
theorem snap_afterTrans (ext : Externals) (cur : Nat) :
    ∀ s ∈ afterTrans cur ext, snapInv s := by
  unfold afterTrans
  cases ext.transcribe with
  | error msg => simp [snapInv]
  | ok _ =>
    by_cases hd : ext.diarizeEnabled
    · simp only [hd, if_true]
      cases ext.diarize with
      | error msg => simp [snapInv]
      | ok _ =>
        intro s hs
        rcases List.mem_cons.mp hs with h | h
        · simp [h, snapInv]
        · exact snap_summPart ext s h
    · simp only [hd, if_false]
      exact snap_summPart ext

/-- Every snapshot of `transPart` satisfies the per-snapshot invariant when
started at progress `cur ∈ [60, 94]`. -/
theorem snap_transPart (ext : Externals) (rs : List Nat) :
    ∀ cur, 60 ≤ cur → cur ≤ 94 →
      ∀ s ∈ transPart cur rs ext, snapInv s := by
  induction rs with
  | nil => intro cur _ _; exact snap_afterTrans ext cur
  | cons r rest ih =>
    intro cur h60 h94
    unfold transPart
    intro s hs
    rcases List.mem_cons.mp hs with h | h
    · subst h
      refine ⟨by simp, by simp, by simp, ?_, by simp, by simp, by simp⟩
      intro _
      constructor <;> (simp; omega)
    · exact ih (max cur (min r 94)) (by omega) (by omega) s h

/-- Every snapshot of the pipeline trace satisfies the per-snapshot
invariant. -/
theorem snap_runPipeline (ext : Externals) :
    ∀ s ∈ runPipeline ext, snapInv s := by
  unfold runPipeline
  intro s hs
  rcases List.mem_cons.mp hs with h | hs
  · simp [h, snapInv]
  rcases List.mem_cons.mp hs with h | hs
  · simp [h, snapInv]
  cases hacq : ext.acquire with
  | error msg => rw [hacq] at hs; simp_all [snapInv]
  | ok _ =>
    rw [hacq] at hs
    rcases List.mem_cons.mp hs with h | hs
    · simp [h, snapInv]
    cases hex : ext.extract with
    | error msg => rw [hex] at hs; simp_all [snapInv]
    | ok _ =>
      rw [hex] at hs
      rcases List.mem_cons.mp hs with h | hs
      · simp [h, snapInv]
      · exact snap_transPart ext ext.transcribePartials 60 (by omega) (by omega) s hs

/-- C2: for every pipeline run, each recorded snapshot sits at its stage's
fixed checkpoint — `downloading` at 5, `extracting_audio` at 40,
`transcribing` in [60, 95) (strictly below 95 throughout the stage),
`summarizing` at 95, `completed` at 100 with `result` populated — and every
entry into `transcribing` from another stage lands exactly at progress 60. -/
theorem pipeline_stage_checkpoints (ext : Externals) :
    (∀ s ∈ runPipeline ext, snapInv s) ∧
    List.Chain'
      (fun a b => b.state = .transcribing → a.state ≠ .transcribing →
        b.progress = 60)
      (runPipeline ext) :=
  ⟨snap_runPipeline ext,
   (chain_runPipeline ext).imp (fun _ _ h => h.2.2.2.1)⟩

/-- C2 witness: in a concrete successful run, the completed snapshot carries
progress 100 and a populated result. -/
theorem pipeline_stage_checkpoints_witness :
    snapInv (Snap.mk .completed 100 (some "summary") none) :=
  (pipeline_stage_checkpoints
      (Externals.mk (.ok "dl.mp4") (.ok "audio.wav") [70, 80]
        (.ok "transcript") false (.ok "labels") (.ok "summary"))).1
    (Snap.mk .completed 100 (some "summary") none) (by decide)

/-- C3: every pipeline trace only makes transitions of the legal sequence
`queued → downloading → extracting_audio → transcribing → [diarizing] →
summarizing → {completed | error}` — no skipped stage except the optional
`diarizing`, no backward step — and a snapshot followed by another is never
terminal, so once `completed` or `error` is reached no further transition
occurs. -/
theorem pipeline_legal_transitions (ext : Externals) :
    List.Chain'
      (fun a b => legalStep a.state b.state = true ∧
        a.state ≠ .completed ∧ a.state ≠ .error)
      (runPipeline ext) :=
  (chain_runPipeline ext).imp (fun _ _ h => ⟨h.1, h.2.2.2.2⟩)

/-- C4: along every pipeline trace progress is non-decreasing, and a step
into `error` freezes progress at its previous value; when the Media Acquirer
fails the trace ends in an `error` snapshot at progress 5 (below the
40 acquisition boundary), every errored snapshot stays below 40, and
`completed` is never reached. -/
theorem pipeline_progress_monotone (ext : Externals) :
    List.Chain'
      (fun a b => a.progress ≤ b.progress ∧
        (b.state = .error → b.progress = a.progress))
      (runPipeline ext) ∧
    ∀ msg, ext.acquire = .error msg →
      (runPipeline ext).getLast? = some (Snap.mk .error 5 none (some msg)) ∧
      (∀ s ∈ runPipeline ext, s.state = .error → s.progress < 40) ∧
      (∀ s ∈ runPipeline ext, s.state ≠ .completed) := by
  refine ⟨(chain_runPipeline ext).imp (fun _ _ h => ⟨h.2.1, h.2.2.1⟩), ?_⟩
  intro msg hacq
  have htr : runPipeline ext =
      [Snap.mk .queued 0 none none, Snap.mk .downloading 5 none none,
       Snap.mk .error 5 none (some msg)] := by
    unfold runPipeline
    rw [hacq]
  rw [htr]
  refine ⟨rfl, ?_, ?_⟩ <;> intro s hs <;> fin_cases hs <;> simp

/-- C6: the history query returns a permutation of the store's tasks that is
pairwise ordered by `createdAt` descending with ties broken by `id`, and any
(client-side) filtering of that listing preserves the ordering. -/
theorem history_ordering (st : ServerState) :
    List.Pairwise histOrder (listHistory st) ∧
    (listHistory st).Perm st.tasks ∧
    ∀ p : STask → Bool, List.Pairwise histOrder ((listHistory st).filter p) := by
  refine ⟨List.sorted_insertionSort histOrder st.tasks,
    List.perm_insertionSort histOrder st.tasks, ?_⟩
  intro p
  exact (List.sorted_insertionSort histOrder st.tasks).filter p

/-- C7: a malformed source descriptor — the empty URL, a URL without an
HTTP(S) scheme, or an allow-listed-domain miss — makes `submit` return a
`ValidationError` with the store untouched: the task list and the history
length are unchanged, so no task was created. -/
theorem submit_rejects_malformed (allow : List String) (st : ServerState)
    (url : String) (now : Int)
    (hbad : url = "" ∨ stripScheme url = none ∨
      ∀ rest, stripScheme url = some rest →
        allow.any (fun d => d.data == hostOf rest) = false) :
    submit allow st url now = (st, Except.error "ValidationError") ∧
    (submit allow st url now).1.tasks = st.tasks ∧
    (listHistory (submit allow st url now).1).length = (listHistory st).length := by
  have hval : validURL allow url = false := by
    unfold validURL
    rcases hbad with h | h | h
    · subst h
      rfl
    · rw [h]
    · cases hs : stripScheme url with
      | none => rfl
      | some rest => exact h rest hs
  have hsub : submit allow st url now = (st, Except.error "ValidationError") := by
    unfold submit
    rw [hval]
    rfl
  exact ⟨hsub, by rw [hsub], by rw [hsub]⟩

/-- C7 witness: a concrete non-HTTP URL is rejected with the store
unchanged. -/
theorem submit_rejects_malformed_witness :
    submit ["zoom.us"] (ServerState.mk 0 []) "ftp://zoom.us/rec" 0 =
      (ServerState.mk 0 [], Except.error "ValidationError") ∧
    (submit ["zoom.us"] (ServerState.mk 0 []) "ftp://zoom.us/rec" 0).1.tasks =
      (ServerState.mk 0 []).tasks ∧
    (listHistory
        (submit ["zoom.us"] (ServerState.mk 0 []) "ftp://zoom.us/rec" 0).1).length =
      (listHistory (ServerState.mk 0 [])).length :=
  submit_rejects_malformed ["zoom.us"] (ServerState.mk 0 [])
    "ftp://zoom.us/rec" 0 (Or.inr (Or.inl (by decide)))

/-- C8: the status query answers `NotFound` exactly for ids absent from the
store — deterministically, never a default task — and for a stored task in
the `error` state it returns a well-formed view with state `error` and the
task's message, never `NotFound`. -/
theorem status_notfound_vs_error (st : ServerState) (id : Nat) :
    ((∀ t ∈ st.tasks, t.id ≠ id) → statusQuery st id = .error "NotFound") ∧
    (∀ t, st.tasks.find? (fun t => t.id == id) = some t → t.state = .error →
      statusQuery st id = .ok (StatusView.mk .error t.progress t.message) ∧
      statusQuery st id ≠ .error "NotFound") := by
  constructor
  · intro habs
    unfold statusQuery
    have hnone : st.tasks.find? (fun t => t.id == id) = none := by
      rw [List.find?_eq_none]
      intro t ht
      simpa using habs t ht
    rw [hnone]
  · intro t hfind herr
    unfold statusQuery
    rw [hfind]
    simp [herr]

/-- C8 witness: an empty store answers `NotFound` for id 7, and a store whose
only task errored reports state `error` with its message. -/
theorem status_notfound_vs_error_witness :
    statusQuery (ServerState.mk 0 []) 7 = .error "NotFound" ∧
    statusQuery (ServerState.mk 2 [STask.mk 1 .error 40 "ffmpeg failed" 10]) 1 =
      .ok (StatusView.mk .error 40 "ffmpeg failed") ∧
    statusQuery (ServerState.mk 2 [STask.mk 1 .error 40 "ffmpeg failed" 10]) 1 ≠
      .error "NotFound" :=
  ⟨(status_notfound_vs_error (ServerState.mk 0 []) 7).1 (by simp),
   ((status_notfound_vs_error
        (ServerState.mk 2 [STask.mk 1 .error 40 "ffmpeg failed" 10]) 1).2
      (STask.mk 1 .error 40 "ffmpeg failed" 10) (by decide) rfl).1,
   ((status_notfound_vs_error
        (ServerState.mk 2 [STask.mk 1 .error 40 "ffmpeg failed" 10]) 1).2
      (STask.mk 1 .error 40 "ffmpeg failed" 10) (by decide) rfl).2⟩

/-- C4 witness: a concrete run whose acquisition fails ends in `error` at
progress 5. -/
theorem pipeline_progress_monotone_witness :
    (runPipeline
        (Externals.mk (.error "download failed") (.ok "") []
          (.ok "") false (.ok "") (.ok ""))).getLast? =
      some (Snap.mk .error 5 none (some "download failed")) :=
  ((pipeline_progress_monotone
      (Externals.mk (.error "download failed") (.ok "") []
        (.ok "") false (.ok "") (.ok ""))).2
    "download failed" rfl).1

end ZoomServer
